import Mathlib

set_option autoImplicit false

/-!
Verification development for the ai-pipeline-orchestrator repository.

The repository ships three non-trivial components: an ordered-stage
orchestration engine over a shared request context, a hybrid intent
classifier (keyword scoring with an optional model-backed fallback), and a
context optimizer selecting knowledge sections under a full/selective
policy.  The shallow embedding below models these components and the
provider factory, and the theorems settle the frozen claims about them.
Confidence values and thresholds are embedded as rationals; elapsed
stage durations are abstracted as a duration function supplied to the
engine model.
-/

namespace AIPipeline

/-! ### String utilities: case-insensitive substring containment -/

/-- Lowercases every character of a character list (ASCII case fold). -/
def lowerChars (cs : List Char) : List Char := cs.map Char.toLower

/-- Checks whether the first character list occurs at the head of the second. -/
def strLead : List Char → List Char → Bool
  | [], _ => true
  | _ :: _, [] => false
  | a :: as, b :: bs => a == b && strLead as bs

/-- Checks whether the first character list occurs as a contiguous run
anywhere inside the second. -/
def strWithin (needle : List Char) : List Char → Bool
  | [] => strLead needle []
  | b :: bs => strLead needle (b :: bs) || strWithin needle bs

/-- Case-insensitive substring test on strings, mirroring the
`text.toLowerCase().includes(keyword.toLowerCase())` idiom. -/
def containsKeyword (text keyword : String) : Bool :=
  strWithin (lowerChars keyword.data) (lowerChars text.data)

/-! ### Intent classification data model (src/src/intent/types.ts) -/

/-- One intent pattern: a category label plus its keyword list
(`IntentPattern` in src/src/intent/types.ts). -/
structure IntentPattern where
  category : String
  keywords : List String
deriving DecidableEq, Repr

/-- Classification output: category, confidence and matched keywords
(`IntentResult` in src/src/intent/types.ts; the optional metadata record
is omitted since no settled property mentions it). -/
structure IntentResult where
  intent : String
  confidence : ℚ
  matchedKeywords : List String
deriving DecidableEq, Repr

/-- Keywords of a pattern matched by the text, by case-insensitive
substring containment, in declared keyword order. -/
def matchedKeywords (text : String) (keywords : List String) : List String :=
  keywords.filter (fun k => containsKeyword text k)

/-- Match count of a pattern against a text. -/
def scoreOf (text : String) (p : IntentPattern) : Nat :=
  (matchedKeywords text p.keywords).length

/-- Modelled from the spec: the winner selection of the keyword intent
classifier (`IntentClassifier.classify` / `detectIntent`, whose source
file is absent from the repository snapshot).  The winner is the category
with the strictly highest match count, ties broken by earliest
declaration order; when every category scores zero there is no winner. -/
def bestPattern (text : String) : List IntentPattern → Option IntentPattern
  | [] => none
  | p :: rest =>
    match bestPattern text rest with
    | none => if 0 < scoreOf text p then some p else none
    | some q => if scoreOf text q ≤ scoreOf text p then some p else some q

/-- Clamps a rational to the interval [0, 1]. -/
def clamp01 (q : ℚ) : ℚ := if q < 0 then 0 else if 1 < q then 1 else q

/-- Modelled from the spec: the keyword intent classifier
(`IntentClassifier.classify` / `detectIntent`, source file absent from
the snapshot).  Confidence is matched count over the total keyword count
of the winning category, clamped to [0, 1]; an all-zero score yields the
sentinel result. -/
def detectIntent (patterns : List IntentPattern) (text : String) : IntentResult :=
  match bestPattern text patterns with
  | none => { intent := "unknown", confidence := 0, matchedKeywords := [] }
  | some p =>
    let matched := matchedKeywords text p.keywords
    { intent := p.category
      confidence := clamp01 (mkRat matched.length p.keywords.length)
      matchedKeywords := matched }

/-- Hybrid resolution output: the chosen classification plus the method
tag reported by the intent handler (keyword versus llm). -/
structure ResolvedIntent where
  result : IntentResult
  method : String
deriving DecidableEq, Repr

/-- Modelled from the spec: the hybrid intent resolver built by
`createIntentHandler` (source file absent from the snapshot).  The
keyword classifier always runs first; the model classifier is consulted
only when it is configured and the keyword confidence is below the
threshold, and its result then wins unconditionally.  The boolean
records whether the model classifier was invoked. -/
def resolveIntent (keywordClassify : String → IntentResult)
    (modelClassify : Option (String → IntentResult)) (threshold : ℚ)
    (text : String) : ResolvedIntent × Bool :=
  let kw := keywordClassify text
  match modelClassify with
  | none => ({ result := kw, method := "keyword" }, false)
  | some mc =>
    if threshold ≤ kw.confidence then ({ result := kw, method := "keyword" }, false)
    else ({ result := mc text, method := "llm" }, true)

/-! ### Context optimizer data model (src/src/providers/index.ts types) -/

/-- One knowledge section (`ContextSection` in the source; the optional
topic list is modelled as a plain list, absence as the empty list). -/
structure ContextSection where
  id : String
  name : String
  content : String
  topics : List String
  alwaysInclude : Bool
  priority : Option Nat
deriving DecidableEq, Repr

/-- Context assembly policy for one position. -/
inductive ContextMode where
  | full
  | selective
deriving DecidableEq, Repr

/-- Strategy: policy for the first message and for follow-ups
(`ContextStrategy` in the source). -/
structure ContextStrategy where
  firstMessage : ContextMode
  followUp : ContextMode
deriving DecidableEq, Repr

/-- Optimizer configuration (`ContextConfig` in the source). -/
structure ContextConfig where
  sections : List ContextSection
  strategy : ContextStrategy
deriving DecidableEq, Repr

/-- Optimizer output (`ContextResult` in the source). -/
structure ContextResult where
  systemPrompt : String
  sectionsIncluded : List String
  totalSections : Nat
  tokenEstimate : Nat
  maxTokenEstimate : Nat
deriving DecidableEq, Repr

/-- Fixed delimiter joining included section contents. -/
def contextDelimiter : String := "\n\n"

/-- Approximate token estimate: a fixed ratio of the text length. -/
def estimateTokens (s : String) : Nat := s.length / 4

/-- The policy in force for a call: the first-message policy on the first
message, the follow-up policy otherwise. -/
def modeFor (cfg : ContextConfig) (isFirstMessage : Bool) : ContextMode :=
  if isFirstMessage then cfg.strategy.firstMessage else cfg.strategy.followUp

/-- Modelled from the spec: the per-section inclusion test of
`ContextOptimizer` (source file absent from the snapshot).  Full mode
includes everything; selective mode includes a section when it is marked
always-include or its topic list intersects the supplied topics. -/
def sectionIncluded (mode : ContextMode) (topics : List String)
    (s : ContextSection) : Bool :=
  match mode with
  | ContextMode.full => true
  | ContextMode.selective => s.alwaysInclude || s.topics.any (fun t => topics.contains t)

/-- Sections retained by a call, in declared order. -/
def includedSections (cfg : ContextConfig) (topics : List String)
    (isFirstMessage : Bool) : List ContextSection :=
  cfg.sections.filter (sectionIncluded (modeFor cfg isFirstMessage) topics)

/-- Modelled from the spec: `ContextOptimizer.build` (source file absent
from the snapshot).  Assembles the prompt from the included sections in
declared order and reports ids, counts and token estimates. -/
def buildContext (cfg : ContextConfig) (topics : List String)
    (isFirstMessage : Bool) : ContextResult :=
  let included := includedSections cfg topics isFirstMessage
  { systemPrompt := String.intercalate contextDelimiter (included.map (fun s => s.content))
    sectionsIncluded := included.map (fun s => s.id)
    totalSections := cfg.sections.length
    tokenEstimate :=
      estimateTokens (String.intercalate contextDelimiter (included.map (fun s => s.content)))
    maxTokenEstimate :=
      estimateTokens (String.intercalate contextDelimiter (cfg.sections.map (fun s => s.content))) }

/-! ### Provider factory (src/src/providers/index.ts, createModel) -/

/-- Provider factory input (`ProviderConfig` in the source; the provider
is a plain string since the runtime check is a string comparison). -/
structure ProviderConfig where
  provider : String
  model : String
  apiKey : Option String
  baseURL : Option String
deriving DecidableEq, Repr

/-- The model instance resolved by `createModel`: which SDK client is
constructed and with what settings. -/
inductive ModelInstance where
  | anthropicModel (apiKey : Option String) (modelId : String)
  | openaiModel (apiKey : Option String) (modelId : String)
  | deepseekModel (apiKey : Option String) (baseURL : String) (modelId : String)
  | ollamaModel (baseURL : String) (modelId : String)
deriving DecidableEq, Repr

/-- `createModel` from src/src/providers/index.ts: dispatches on the
provider string, applying the documented base-URL defaults for deepseek
and ollama, and fails on any other provider value. -/
def createModel (config : ProviderConfig) : Except String ModelInstance :=
  if config.provider = "anthropic" then
    Except.ok (ModelInstance.anthropicModel config.apiKey config.model)
  else if config.provider = "openai" then
    Except.ok (ModelInstance.openaiModel config.apiKey config.model)
  else if config.provider = "deepseek" then
    Except.ok (ModelInstance.deepseekModel config.apiKey
      (config.baseURL.getD "https://api.deepseek.com") config.model)
  else if config.provider = "ollama" then
    Except.ok (ModelInstance.ollamaModel
      (config.baseURL.getD "http://localhost:11434") config.model)
  else
    Except.error ("Unsupported provider: " ++ config.provider)

/-! ### Orchestration engine data model -/

/-- One chat message. -/
structure Message where
  role : String
  content : String
deriving DecidableEq, Repr

/-- The inbound request: ordered messages plus a metadata mapping. -/
structure RequestPayload where
  messages : List Message
  metadata : List (String × String)
deriving DecidableEq, Repr

/-- Structured pipeline error: message, originating step, optional
status code and optional cause. -/
structure PipelineError where
  message : String
  step : Option String
  statusCode : Option Nat
  cause : Option String
deriving DecidableEq, Repr

/-- Generation output: text plus usage counters. -/
structure AIResponse where
  text : String
  promptTokens : Nat
  completionTokens : Nat
deriving DecidableEq, Repr

/-- The mutable request context threaded through stages
(`OrchestrationContext`): the request, the typed result slots filled by
stages, and the error slot. -/
structure OrchestrationContext where
  request : RequestPayload
  intent : Option IntentResult
  promptContext : Option ContextResult
  aiResponse : Option AIResponse
  error : Option PipelineError
deriving DecidableEq, Repr

/-- A stage handler either returns an updated context or throws with a
message. -/
inductive HandlerOutcome where
  | ok (ctx : OrchestrationContext)
  | thrown (msg : String)

/-- One pipeline stage: a name and a handler (`OrchestrationStep`). -/
structure OrchestrationStep where
  name : String
  handler : OrchestrationContext → HandlerOutcome

/-- Pipeline outcome (`OrchestrationResult`): success flag, final
context and optional error. -/
structure OrchestrationResult where
  success : Bool
  context : OrchestrationContext
  error : Option PipelineError
deriving DecidableEq, Repr

/-- The optional per-step observer; it may itself throw. -/
def StepObserver : Type := String → Nat → Except String Unit

/-- Full execution record of the model: the returned result, the trace
of observer invocations (step name and elapsed duration), and the trace
of stage handlers that actually ran. -/
structure ExecOutcome where
  result : OrchestrationResult
  observerCalls : List (String × Nat)
  ranSteps : List String

/-- Annotation applied to a pre-existing error when stages remain: the
next stage name is written into the step field when that field is unset. -/
def annotateNext (steps : List OrchestrationStep) (e : PipelineError) : PipelineError :=
  match steps with
  | [] => e
  | step :: _ => if e.step.isNone then { e with step := some step.name } else e

/-- Modelled from the spec: the sequential stage loop of
`executeOrchestration` (orchestrator source file absent from the
snapshot).  Before each stage the error slot is checked; a thrown
handler failure is caught and wrapped into a structured error naming the
stage; after each handler that returns normally the observer is invoked
and any observer failure is swallowed.  The duration function abstracts
the measured elapsed milliseconds of each stage index. -/
def execFrom (obs : StepObserver) (dur : Nat → Nat) :
    List OrchestrationStep → Nat → OrchestrationContext → ExecOutcome
  | [], _, ctx =>
    match ctx.error with
    | some e => { result := { success := false, context := ctx, error := some e }
                  observerCalls := [], ranSteps := [] }
    | none => { result := { success := true, context := ctx, error := none }
                observerCalls := [], ranSteps := [] }
  | step :: rest, i, ctx =>
    match ctx.error with
    | some e =>
      let e2 := if e.step.isNone then { e with step := some step.name } else e
      { result := { success := false, context := { ctx with error := some e2 }, error := some e2 }
        observerCalls := [], ranSteps := [] }
    | none =>
      match step.handler ctx with
      | HandlerOutcome.thrown msg =>
        let e2 : PipelineError :=
          { message := msg, step := some step.name, statusCode := none, cause := some msg }
        { result := { success := false, context := { ctx with error := some e2 }, error := some e2 }
          observerCalls := [], ranSteps := [step.name] }
      | HandlerOutcome.ok ctx2 =>
        let d := dur i
        let _swallowed := obs step.name d
        let tailOut := execFrom obs dur rest (i + 1) ctx2
        { result := tailOut.result
          observerCalls := (step.name, d) :: tailOut.observerCalls
          ranSteps := step.name :: tailOut.ranSteps }

/-- Modelled from the spec: `executeOrchestration(context, steps,
options?)`, the pipeline entry point. -/
def executeOrchestration (obs : StepObserver) (dur : Nat → Nat)
    (ctx : OrchestrationContext) (steps : List OrchestrationStep) : ExecOutcome :=
  execFrom obs dur steps 0 ctx

/-- The stages that complete successfully in an execution, with their
durations: the expected observer invocation trace, computed without any
observer. -/
def completedSteps (dur : Nat → Nat) :
    List OrchestrationStep → Nat → OrchestrationContext → List (String × Nat)
  | [], _, _ => []
  | step :: rest, i, ctx =>
    match ctx.error with
    | some _ => []
    | none =>
      match step.handler ctx with
      | HandlerOutcome.thrown _ => []
      | HandlerOutcome.ok ctx2 => (step.name, dur i) :: completedSteps dur rest (i + 1) ctx2

/-! ### Sample values used by the closed witness theorems -/

/-- An observer that succeeds silently. -/
def noopObserver : StepObserver := fun _ _ => Except.ok ()

/-- An observer that always throws. -/
def throwingObserver : StepObserver := fun _ _ => Except.error "observer failed"

/-- A duration function assigning one millisecond to every stage. -/
def unitDur : Nat → Nat := fun _ => 1

/-- A one-message request. -/
def sampleRequest : RequestPayload :=
  { messages := [{ role := "user", content := "hi" }], metadata := [] }

/-- A fresh context with no error and no results. -/
def cleanCtx : OrchestrationContext :=
  { request := sampleRequest, intent := none, promptContext := none
    aiResponse := none, error := none }

/-- An error whose step field is unset. -/
def boomError : PipelineError :=
  { message := "boom", step := none, statusCode := none, cause := none }

/-- A context entering the pipeline with its error slot already set. -/
def erroredCtx : OrchestrationContext := { cleanCtx with error := some boomError }

/-- A stage that must never run once an error is set. -/
def sentinelStep : OrchestrationStep :=
  { name := "sentinel", handler := fun c => HandlerOutcome.ok c }

/-- A stage whose handler throws. -/
def throwingStep : OrchestrationStep :=
  { name := "ai", handler := fun _ => HandlerOutcome.thrown "backend unreachable" }

/-- The structured error written by the sample moderation stage. -/
def blockedError : PipelineError :=
  { message := "blocked", step := some "moderation", statusCode := none, cause := none }

/-- A stage that rejects by setting the context error slot. -/
def moderationStep : OrchestrationStep :=
  { name := "moderation"
    handler := fun c => HandlerOutcome.ok { c with error := some blockedError } }

/-! ### Orchestration engine theorems -/

/-- With the error slot already set, execution halts before any handler,
whatever the remaining stages and start index are. -/
theorem execFrom_error_halt (obs : StepObserver) (dur : Nat → Nat)
    (steps : List OrchestrationStep) (i : Nat) (ctx : OrchestrationContext)
    (e : PipelineError) (h : ctx.error = some e) :
    (execFrom obs dur steps i ctx).ranSteps = [] ∧
    (execFrom obs dur steps i ctx).result.success = false ∧
    (execFrom obs dur steps i ctx).result.error = some (annotateNext steps e) := by
  cases steps with
  | nil => simp [execFrom, annotateNext, h]
  | cons step rest => simp [execFrom, annotateNext, h]

/-- Claim C1: once the request context error field is set, no later stage
handler executes and execution returns success equal to false carrying
that error, annotated with the next stage name when its step field is
unset; in particular a stage that sets the error slot stops every stage
after it. -/
theorem error_short_circuit (obs : StepObserver) (dur : Nat → Nat)
    (steps : List OrchestrationStep) (ctx : OrchestrationContext) (e : PipelineError) :
    (ctx.error = some e →
      (executeOrchestration obs dur ctx steps).ranSteps = [] ∧
      (executeOrchestration obs dur ctx steps).result.success = false ∧
      (executeOrchestration obs dur ctx steps).result.error = some (annotateNext steps e)) ∧
    (∀ (step : OrchestrationStep) (rest : List OrchestrationStep)
        (ctx2 : OrchestrationContext) (e2 : PipelineError),
      ctx.error = none → step.handler ctx = HandlerOutcome.ok ctx2 →
      ctx2.error = some e2 →
      (executeOrchestration obs dur ctx (step :: rest)).ranSteps = [step.name] ∧
      (executeOrchestration obs dur ctx (step :: rest)).result.success = false ∧
      (executeOrchestration obs dur ctx (step :: rest)).result.error =
        some (annotateNext rest e2)) := by
  constructor
  · intro h
    exact execFrom_error_halt obs dur steps 0 ctx e h
  · intro step rest ctx2 e2 h hok herr
    have htail := execFrom_error_halt obs dur rest 1 ctx2 e2 herr
    simp [executeOrchestration, execFrom, h, hok, htail.1, htail.2.1, htail.2.2]

/-- Witness for claim C1: a pre-set error stops a sentinel stage and is
annotated with its name, and a moderation stage that sets the error slot
stops the sentinel scheduled after it. -/
theorem error_short_circuit_check :
    ((executeOrchestration noopObserver unitDur erroredCtx [sentinelStep]).ranSteps = [] ∧
     (executeOrchestration noopObserver unitDur erroredCtx [sentinelStep]).result.success = false ∧
     (executeOrchestration noopObserver unitDur erroredCtx [sentinelStep]).result.error =
       some (annotateNext [sentinelStep] boomError)) ∧
    ((executeOrchestration noopObserver unitDur cleanCtx
        [moderationStep, sentinelStep]).ranSteps = ["moderation"] ∧
     (executeOrchestration noopObserver unitDur cleanCtx
        [moderationStep, sentinelStep]).result.success = false ∧
     (executeOrchestration noopObserver unitDur cleanCtx
        [moderationStep, sentinelStep]).result.error =
       some (annotateNext [sentinelStep] blockedError)) :=
  ⟨(error_short_circuit noopObserver unitDur [sentinelStep] erroredCtx boomError).1 rfl,
   (error_short_circuit noopObserver unitDur [] cleanCtx boomError).2 moderationStep
     [sentinelStep] { cleanCtx with error := some blockedError } blockedError rfl rfl rfl⟩

/-- Claim C5: a thrown handler failure is caught and yields success equal
to false with a structured error whose step field is the stage name and
whose message is the failure message; no later stage handler runs. -/
theorem thrown_failure (obs : StepObserver) (dur : Nat → Nat)
    (step : OrchestrationStep) (rest : List OrchestrationStep)
    (ctx : OrchestrationContext) (msg : String)
    (h : ctx.error = none) (hthrow : step.handler ctx = HandlerOutcome.thrown msg) :
    (executeOrchestration obs dur ctx (step :: rest)).result.success = false ∧
    (executeOrchestration obs dur ctx (step :: rest)).result.error =
      some { message := msg, step := some step.name, statusCode := none, cause := some msg } ∧
    (executeOrchestration obs dur ctx (step :: rest)).ranSteps = [step.name] := by
  simp [executeOrchestration, execFrom, h, hthrow]

/-- Witness for claim C5: a throwing ai stage halts the pipeline with the
stage name in the error step field and keeps a later sentinel from
running. -/
theorem thrown_failure_check :
    (executeOrchestration noopObserver unitDur cleanCtx
       [throwingStep, sentinelStep]).result.success = false ∧
    (executeOrchestration noopObserver unitDur cleanCtx
       [throwingStep, sentinelStep]).result.error =
      some { message := "backend unreachable", step := some "ai", statusCode := none
             cause := some "backend unreachable" } ∧
    (executeOrchestration noopObserver unitDur cleanCtx
       [throwingStep, sentinelStep]).ranSteps = ["ai"] :=
  thrown_failure noopObserver unitDur throwingStep [sentinelStep] cleanCtx
    "backend unreachable" rfl rfl

/-- The observer invocation trace equals the successful-stage trace,
whatever the observer does. -/
theorem execFrom_observer_trace (obs : StepObserver) (dur : Nat → Nat) :
    ∀ (steps : List OrchestrationStep) (i : Nat) (ctx : OrchestrationContext),
      (execFrom obs dur steps i ctx).observerCalls = completedSteps dur steps i ctx := by
  intro steps
  induction steps with
  | nil =>
    intro i ctx
    cases h : ctx.error <;> simp [execFrom, completedSteps, h]
  | cons step rest ih =>
    intro i ctx
    cases h : ctx.error with
    | some e => simp [execFrom, completedSteps, h]
    | none =>
      cases hh : step.handler ctx with
      | thrown msg => simp [execFrom, completedSteps, h, hh]
      | ok ctx2 => simp [execFrom, completedSteps, h, hh, ih]

/-- Swapping the observer changes nothing in the execution record. -/
theorem execFrom_observer_irrelevant (obs obs2 : StepObserver) (dur : Nat → Nat) :
    ∀ (steps : List OrchestrationStep) (i : Nat) (ctx : OrchestrationContext),
      execFrom obs dur steps i ctx = execFrom obs2 dur steps i ctx := by
  intro steps
  induction steps with
  | nil => intro i ctx; rfl
  | cons step rest ih =>
    intro i ctx
    cases h : ctx.error with
    | some e => simp [execFrom, h]
    | none =>
      cases hh : step.handler ctx with
      | thrown msg => simp [execFrom, h, hh]
      | ok ctx2 => simp [execFrom, h, hh, ih]

/-- Claim C8: the observer is invoked with the step name and elapsed
duration exactly after the stages that completed successfully, and the
whole execution record, its returned result included, is the same for
every observer, a throwing observer included. -/
theorem observer_trace_and_swallow (obs obs2 : StepObserver) (dur : Nat → Nat)
    (ctx : OrchestrationContext) (steps : List OrchestrationStep) :
    (executeOrchestration obs dur ctx steps).observerCalls = completedSteps dur steps 0 ctx ∧
    executeOrchestration obs dur ctx steps = executeOrchestration obs2 dur ctx steps :=
  ⟨execFrom_observer_trace obs dur steps 0 ctx,
   execFrom_observer_irrelevant obs obs2 dur steps 0 ctx⟩

/-! ### Keyword classifier theorems -/

/-- A winner returned by the selection is a configured pattern with a
positive match count. -/
theorem bestPattern_some_pos (text : String) :
    ∀ (l : List IntentPattern) (p : IntentPattern),
      bestPattern text l = some p → p ∈ l ∧ 0 < scoreOf text p := by
  intro l
  induction l with
  | nil => intro p h; simp [bestPattern] at h
  | cons a rest ih =>
    intro p h
    simp only [bestPattern] at h
    cases hb : bestPattern text rest with
    | none =>
      rw [hb] at h
      by_cases hs : 0 < scoreOf text a
      · simp only [if_pos hs, Option.some.injEq] at h
        subst h
        exact ⟨List.mem_cons_self a rest, hs⟩
      · simp [if_neg hs] at h
    | some q =>
      rw [hb] at h
      by_cases hle : scoreOf text q ≤ scoreOf text a
      · simp only [if_pos hle, Option.some.injEq] at h
        subst h
        exact ⟨List.mem_cons_self a rest, lt_of_lt_of_le (ih q hb).2 hle⟩
      · simp only [if_neg hle, Option.some.injEq] at h
        subst h
        exact ⟨List.mem_cons_of_mem a (ih q hb).1, (ih q hb).2⟩

/-- When the selection returns no winner, every category scores zero. -/
theorem bestPattern_none_all_zero (text : String) :
    ∀ (l : List IntentPattern), bestPattern text l = none →
      ∀ p ∈ l, scoreOf text p = 0 := by
  intro l
  induction l with
  | nil => intro _ p hp; cases hp
  | cons a rest ih =>
    intro h p hp
    simp only [bestPattern] at h
    cases hb : bestPattern text rest with
    | none =>
      rw [hb] at h
      by_cases hs : 0 < scoreOf text a
      · simp [if_pos hs] at h
      · cases hp with
        | head => omega
        | tail _ hmem => exact ih hb p hmem
    | some q =>
      rw [hb] at h
      by_cases hle : scoreOf text q ≤ scoreOf text a
      · simp [if_pos hle] at h
      · simp [if_neg hle] at h

/-- When every category scores zero, the selection returns no winner. -/
theorem bestPattern_all_zero_none (text : String) :
    ∀ (l : List IntentPattern), (∀ p ∈ l, scoreOf text p = 0) →
      bestPattern text l = none := by
  intro l
  induction l with
  | nil => intro _; rfl
  | cons a rest ih =>
    intro h
    have ha : scoreOf text a = 0 := h a (List.mem_cons_self a rest)
    have hrest : bestPattern text rest = none :=
      ih fun p hp => h p (List.mem_cons_of_mem a hp)
    simp [bestPattern, hrest, ha]

/-- The winner sits at an index whose score every position matches at
most, every strictly earlier position matching strictly less. -/
theorem bestPattern_argmax (text : String) :
    ∀ (l : List IntentPattern) (p : IntentPattern), bestPattern text l = some p →
      ∃ i, ∃ h : i < l.length, l.get ⟨i, h⟩ = p ∧ 0 < scoreOf text p ∧
        (∀ j (hj : j < l.length), scoreOf text (l.get ⟨j, hj⟩) ≤ scoreOf text p) ∧
        (∀ j (hj : j < l.length), j < i → scoreOf text (l.get ⟨j, hj⟩) < scoreOf text p) := by
  intro l
  induction l with
  | nil => intro p h; simp [bestPattern] at h
  | cons a rest ih =>
    intro p h
    simp only [bestPattern] at h
    cases hb : bestPattern text rest with
    | none =>
      rw [hb] at h
      have hz := bestPattern_none_all_zero text rest hb
      by_cases hs : 0 < scoreOf text a
      · simp only [if_pos hs, Option.some.injEq] at h
        subst h
        refine ⟨0, Nat.succ_pos _, rfl, hs, ?_, ?_⟩
        · intro j hj
          cases j with
          | zero => exact le_refl _
          | succ k =>
            have hk : k < rest.length := Nat.lt_of_succ_lt_succ hj
            have hzk : scoreOf text (rest.get ⟨k, hk⟩) = 0 :=
              hz _ (rest.get_mem k hk)
            rw [List.get_cons_succ, hzk]
            exact Nat.zero_le _
        · intro j hj hj0; omega
      · simp [if_neg hs] at h
    | some q =>
      rw [hb] at h
      obtain ⟨i0, h0, hget, hpos, hub, hstrict⟩ := ih q hb
      by_cases hle : scoreOf text q ≤ scoreOf text a
      · simp only [if_pos hle, Option.some.injEq] at h
        subst h
        refine ⟨0, Nat.succ_pos _, rfl, lt_of_lt_of_le hpos hle, ?_, ?_⟩
        · intro j hj
          cases j with
          | zero => exact le_refl _
          | succ k =>
            have hk : k < rest.length := Nat.lt_of_succ_lt_succ hj
            calc scoreOf text ((a :: rest).get ⟨k + 1, hj⟩)
                = scoreOf text (rest.get ⟨k, hk⟩) := by rw [List.get_cons_succ]
              _ ≤ scoreOf text q := hub k hk
              _ ≤ scoreOf text a := hle
        · intro j hj hj0; omega
      · simp only [if_neg hle, Option.some.injEq] at h
        subst h
        have hlt : scoreOf text a < scoreOf text q := Nat.lt_of_not_le hle
        refine ⟨i0 + 1, Nat.succ_lt_succ h0, ?_, hpos, ?_, ?_⟩
        · rw [List.get_cons_succ]
          exact hget
        · intro j hj
          cases j with
          | zero => exact le_of_lt hlt
          | succ k =>
            have hk : k < rest.length := Nat.lt_of_succ_lt_succ hj
            calc scoreOf text ((a :: rest).get ⟨k + 1, hj⟩)
                = scoreOf text (rest.get ⟨k, hk⟩) := by rw [List.get_cons_succ]
              _ ≤ scoreOf text q := hub k hk
        · intro j hj hji
          cases j with
          | zero => exact hlt
          | succ k =>
            have hk : k < rest.length := Nat.lt_of_succ_lt_succ hj
            calc scoreOf text ((a :: rest).get ⟨k + 1, hj⟩)
                = scoreOf text (rest.get ⟨k, hk⟩) := by rw [List.get_cons_succ]
              _ < scoreOf text q := hstrict k hk (Nat.lt_of_succ_lt_succ hji)

/-- Claim C3: the keyword classifier winner is the category with the
strictly highest case-insensitive substring match count, ties broken by
earliest declaration order, with confidence equal to the matched count
over the winning category keyword total clamped to [0, 1]; on the
patterns greeting [hi, hello] and help [help] with the input "hello, I
need help" the result is greeting with confidence one half. -/
theorem keyword_classifier_winner (patterns : List IntentPattern) (text : String) :
    (∀ p, bestPattern text patterns = some p →
      ((detectIntent patterns text).intent = p.category ∧
       (detectIntent patterns text).confidence =
         clamp01 (mkRat (matchedKeywords text p.keywords).length p.keywords.length) ∧
       (detectIntent patterns text).matchedKeywords = matchedKeywords text p.keywords) ∧
      ∃ i, ∃ h : i < patterns.length, patterns.get ⟨i, h⟩ = p ∧ 0 < scoreOf text p ∧
        (∀ j (hj : j < patterns.length),
          scoreOf text (patterns.get ⟨j, hj⟩) ≤ scoreOf text p) ∧
        (∀ j (hj : j < patterns.length), j < i →
          scoreOf text (patterns.get ⟨j, hj⟩) < scoreOf text p)) ∧
    detectIntent [{ category := "greeting", keywords := ["hi", "hello"] },
                  { category := "help", keywords := ["help"] }] "hello, I need help" =
      { intent := "greeting", confidence := mkRat 1 2, matchedKeywords := ["hello"] } := by
  constructor
  · intro p hp
    constructor
    · simp [detectIntent, hp]
    · exact bestPattern_argmax text patterns p hp
  · decide

/-- Witness for claim C3: on the spec example the winner hypothesis holds
at the greeting pattern and the theorem yields the greeting category. -/
theorem keyword_classifier_winner_check :
    (detectIntent [{ category := "greeting", keywords := ["hi", "hello"] },
                   { category := "help", keywords := ["help"] }]
       "hello, I need help").intent = "greeting" :=
  ((keyword_classifier_winner
      [{ category := "greeting", keywords := ["hi", "hello"] },
       { category := "help", keywords := ["help"] }] "hello, I need help").1
    { category := "greeting", keywords := ["hi", "hello"] } (by decide)).1.1

/-- Claim C7: when every configured category matches zero keywords the
keyword classifier returns the sentinel unknown category with confidence
zero and an empty matched list (the embedded classifier is a total
function, so it throws on no input). -/
theorem keyword_classifier_unknown (patterns : List IntentPattern) (text : String)
    (h : ∀ p ∈ patterns, scoreOf text p = 0) :
    detectIntent patterns text =
      { intent := "unknown", confidence := 0, matchedKeywords := [] } := by
  rw [detectIntent, bestPattern_all_zero_none text patterns h]

/-- Witness for claim C7: a text matching no keyword of the sample
patterns yields the sentinel result. -/
theorem keyword_classifier_unknown_check :
    detectIntent [{ category := "greeting", keywords := ["hi", "hello"] },
                  { category := "help", keywords := ["help"] }] "the weather is nice" =
      { intent := "unknown", confidence := 0, matchedKeywords := [] } :=
  keyword_classifier_unknown
    [{ category := "greeting", keywords := ["hi", "hello"] },
     { category := "help", keywords := ["help"] }] "the weather is nice" (by decide)

/-! ### Hybrid resolver theorems -/

/-- Claim C2: the hybrid resolver runs the keyword classifier first;
with no model classifier configured, or keyword confidence at or above
the threshold, it returns the keyword result unchanged tagged keyword
without invoking the model classifier; otherwise it invokes the model
classifier and returns its result unconditionally tagged llm, with no
condition on which confidence is higher. -/
theorem hybrid_resolver (kc : String → IntentResult)
    (mcOpt : Option (String → IntentResult)) (th : ℚ) (text : String) :
    (mcOpt = none →
      resolveIntent kc mcOpt th text =
        ({ result := kc text, method := "keyword" }, false)) ∧
    (∀ mc, mcOpt = some mc → th ≤ (kc text).confidence →
      resolveIntent kc mcOpt th text =
        ({ result := kc text, method := "keyword" }, false)) ∧
    (∀ mc, mcOpt = some mc → (kc text).confidence < th →
      resolveIntent kc mcOpt th text =
        ({ result := mc text, method := "llm" }, true)) := by
  refine ⟨?_, ?_, ?_⟩
  · intro h; subst h; rfl
  · intro mc h hge; subst h
    simp [resolveIntent, if_pos hge]
  · intro mc h hlt; subst h
    simp [resolveIntent, if_neg (not_le.mpr hlt)]

/-- A keyword classifier of high confidence, for the witness. -/
def kcHigh : String → IntentResult :=
  fun _ => { intent := "greeting", confidence := mkRat 4 5, matchedKeywords := ["hello"] }

/-- A keyword classifier of low confidence, for the witness. -/
def kcLow : String → IntentResult :=
  fun _ => { intent := "unknown", confidence := mkRat 1 5, matchedKeywords := [] }

/-- A model classifier, for the witness. -/
def mcHelp : String → IntentResult :=
  fun _ => { intent := "help", confidence := mkRat 9 10, matchedKeywords := [] }

/-- Witness for claim C2: keyword confidence 0.8 against threshold 0.5
keeps the keyword result with no model invocation; keyword confidence
0.2 consults the model classifier and its result wins; with no model
classifier the keyword result stands. -/
theorem hybrid_resolver_check :
    resolveIntent kcHigh (some mcHelp) (mkRat 1 2) "hello there" =
      ({ result := kcHigh "hello there", method := "keyword" }, false) ∧
    resolveIntent kcLow (some mcHelp) (mkRat 1 2) "ambiguous words" =
      ({ result := mcHelp "ambiguous words", method := "llm" }, true) ∧
    resolveIntent kcLow none (mkRat 1 2) "ambiguous words" =
      ({ result := kcLow "ambiguous words", method := "keyword" }, false) :=
  ⟨(hybrid_resolver kcHigh (some mcHelp) (mkRat 1 2) "hello there").2.1 mcHelp rfl (by decide),
   (hybrid_resolver kcLow (some mcHelp) (mkRat 1 2) "ambiguous words").2.2 mcHelp rfl (by decide),
   (hybrid_resolver kcLow none (mkRat 1 2) "ambiguous words").1 rfl⟩

/-! ### Context optimizer theorems -/

/-- A section always included, for the witnesses. -/
def coreSec : ContextSection :=
  { id := "core", name := "Core Instructions", content := "Be concise."
    topics := [], alwaysInclude := true, priority := none }

/-- A pricing-tagged section, for the witnesses. -/
def pricingSec : ContextSection :=
  { id := "pricing-info", name := "Pricing Information", content := "Plans."
    topics := ["pricing"], alwaysInclude := false, priority := none }

/-- A technical-tagged section, for the witnesses. -/
def techSec : ContextSection :=
  { id := "technical-guide", name := "Technical Guide", content := "Check logs."
    topics := ["technical"], alwaysInclude := false, priority := none }

/-- A section with no topics and no always-include flag, for the
witnesses. -/
def bareSec : ContextSection :=
  { id := "bare", name := "Bare", content := "Untagged."
    topics := [], alwaysInclude := false, priority := none }

/-- A configuration running full on the first message and selective on
follow-ups, for the witnesses. -/
def sampleCfg : ContextConfig :=
  { sections := [coreSec, pricingSec, techSec, bareSec]
    strategy := { firstMessage := ContextMode.full, followUp := ContextMode.selective } }

/-- Claim C4: in selective mode a section is included exactly when it is
configured and either marked always-include or topic-intersecting the
supplied topics; a section with no topics and no always-include flag is
excluded; and an always-include section is included under every policy
and every topic set.  The reported id list is the included sections in
declared order. -/
theorem selective_inclusion (cfg : ContextConfig) (topics : List String)
    (isFirst : Bool) (s : ContextSection) :
    (modeFor cfg isFirst = ContextMode.selective →
      (s ∈ includedSections cfg topics isFirst ↔
        s ∈ cfg.sections ∧ (s.alwaysInclude = true ∨ ∃ t ∈ s.topics, t ∈ topics))) ∧
    (modeFor cfg isFirst = ContextMode.selective → s.topics = [] →
      s.alwaysInclude = false → s ∉ includedSections cfg topics isFirst) ∧
    (s ∈ cfg.sections → s.alwaysInclude = true →
      s ∈ includedSections cfg topics isFirst) ∧
    (buildContext cfg topics isFirst).sectionsIncluded =
      (includedSections cfg topics isFirst).map (fun x => x.id) := by
  refine ⟨?_, ?_, ?_, rfl⟩
  · intro hm
    rw [includedSections, hm]
    simp [List.mem_filter, sectionIncluded, List.any_eq_true]
  · intro hm ht ha
    rw [includedSections, hm]
    simp [List.mem_filter, sectionIncluded, ht, ha]
  · intro hmem ha
    cases hm : modeFor cfg isFirst with
    | full =>
      rw [includedSections, hm]
      simp [List.mem_filter, sectionIncluded, hmem]
    | selective =>
      rw [includedSections, hm]
      simp [List.mem_filter, sectionIncluded, hmem, ha]

/-- Witness for claim C4: under the selective follow-up policy with the
pricing topic, the pricing section is included, the technical and bare
sections are excluded, and the always-include section is included there
and under the full first-message policy too. -/
theorem selective_inclusion_check :
    pricingSec ∈ includedSections sampleCfg ["pricing"] false ∧
    techSec ∉ includedSections sampleCfg ["pricing"] false ∧
    bareSec ∉ includedSections sampleCfg ["pricing"] false ∧
    coreSec ∈ includedSections sampleCfg ["pricing"] false ∧
    coreSec ∈ includedSections sampleCfg [] true :=
  ⟨((selective_inclusion sampleCfg ["pricing"] false pricingSec).1 rfl).mpr
      (by refine ⟨by decide, Or.inr ?_⟩; decide),
   fun hmem =>
     absurd (((selective_inclusion sampleCfg ["pricing"] false techSec).1 rfl).mp hmem)
       (by decide),
   (selective_inclusion sampleCfg ["pricing"] false bareSec).2.1 rfl rfl rfl,
   (selective_inclusion sampleCfg ["pricing"] false coreSec).2.2.1 (by decide) rfl,
   (selective_inclusion sampleCfg [] true coreSec).2.2.1 (by decide) rfl⟩

/-- Claim C6: in full mode every configured section is included in
declared order, so the reported id list is the configured id list and
its length is the configured section total, for any topic set. -/
theorem full_mode_includes_all (cfg : ContextConfig) (topics : List String)
    (isFirst : Bool) (h : modeFor cfg isFirst = ContextMode.full) :
    (buildContext cfg topics isFirst).sectionsIncluded =
      cfg.sections.map (fun s => s.id) ∧
    (buildContext cfg topics isFirst).sectionsIncluded.length =
      (buildContext cfg topics isFirst).totalSections := by
  have hincl : includedSections cfg topics isFirst = cfg.sections := by
    rw [includedSections, h]
    apply List.filter_eq_self.mpr
    intro a _
    rfl
  constructor
  · simp [buildContext, hincl]
  · simp [buildContext, hincl]

/-- Witness for claim C6: the sample configuration on a first message
runs the full policy and reports all four section ids. -/
theorem full_mode_includes_all_check :
    (buildContext sampleCfg ["pricing"] true).sectionsIncluded =
      sampleCfg.sections.map (fun s => s.id) ∧
    (buildContext sampleCfg ["pricing"] true).sectionsIncluded.length =
      (buildContext sampleCfg ["pricing"] true).totalSections :=
  full_mode_includes_all sampleCfg ["pricing"] true rfl

/-- Claim C9: the optimizer build is deterministic: two results obtained
from identical configuration, topics and first-message flag agree on
every field and are equal. -/
theorem optimizer_deterministic (cfg : ContextConfig) (topics : List String)
    (isFirst : Bool) (r1 r2 : ContextResult)
    (h1 : r1 = buildContext cfg topics isFirst)
    (h2 : r2 = buildContext cfg topics isFirst) :
    r1.systemPrompt = r2.systemPrompt ∧ r1.sectionsIncluded = r2.sectionsIncluded ∧
    r1.totalSections = r2.totalSections ∧ r1.tokenEstimate = r2.tokenEstimate ∧
    r1.maxTokenEstimate = r2.maxTokenEstimate ∧ r1 = r2 := by
  subst h1
  subst h2
  exact ⟨rfl, rfl, rfl, rfl, rfl, rfl⟩

/-- Witness for claim C9: two builds from the sample configuration and
identical arguments produce the same result. -/
theorem optimizer_deterministic_check :
    (buildContext sampleCfg ["pricing"] false).systemPrompt =
      (buildContext sampleCfg ["pricing"] false).systemPrompt ∧
    (buildContext sampleCfg ["pricing"] false).sectionsIncluded =
      (buildContext sampleCfg ["pricing"] false).sectionsIncluded ∧
    (buildContext sampleCfg ["pricing"] false).totalSections =
      (buildContext sampleCfg ["pricing"] false).totalSections ∧
    (buildContext sampleCfg ["pricing"] false).tokenEstimate =
      (buildContext sampleCfg ["pricing"] false).tokenEstimate ∧
    (buildContext sampleCfg ["pricing"] false).maxTokenEstimate =
      (buildContext sampleCfg ["pricing"] false).maxTokenEstimate ∧
    buildContext sampleCfg ["pricing"] false = buildContext sampleCfg ["pricing"] false :=
  optimizer_deterministic sampleCfg ["pricing"] false
    (buildContext sampleCfg ["pricing"] false)
    (buildContext sampleCfg ["pricing"] false) rfl rfl

/-! ### Provider factory theorems -/

/-- Claim C10: createModel resolves exactly the providers anthropic,
openai, deepseek and ollama, errors on any other provider value with the
message naming it, and applies the documented base-URL defaults for
deepseek and ollama when none is supplied. -/
theorem create_model_providers (cfg : ProviderConfig) :
    ((createModel cfg).isOk = true ↔
      cfg.provider ∈ ["anthropic", "openai", "deepseek", "ollama"]) ∧
    (cfg.provider ∉ ["anthropic", "openai", "deepseek", "ollama"] →
      createModel cfg = Except.error ("Unsupported provider: " ++ cfg.provider)) ∧
    (cfg.provider = "anthropic" →
      createModel cfg = Except.ok (ModelInstance.anthropicModel cfg.apiKey cfg.model)) ∧
    (cfg.provider = "openai" →
      createModel cfg = Except.ok (ModelInstance.openaiModel cfg.apiKey cfg.model)) ∧
    (cfg.provider = "deepseek" → cfg.baseURL = none →
      createModel cfg = Except.ok (ModelInstance.deepseekModel cfg.apiKey
        "https://api.deepseek.com" cfg.model)) ∧
    (cfg.provider = "ollama" → cfg.baseURL = none →
      createModel cfg = Except.ok (ModelInstance.ollamaModel
        "http://localhost:11434" cfg.model)) := by
  by_cases h1 : cfg.provider = "anthropic"
  · simp [createModel, h1, Except.isOk, Except.toBool]
  · by_cases h2 : cfg.provider = "openai"
    · simp [createModel, h1, h2, Except.isOk, Except.toBool]
    · by_cases h3 : cfg.provider = "deepseek"
      · by_cases hb : cfg.baseURL = none
        · simp [createModel, h1, h2, h3, hb, Except.isOk, Except.toBool]
        · simp [createModel, h1, h2, h3, hb, Except.isOk, Except.toBool]
      · by_cases h4 : cfg.provider = "ollama"
        · by_cases hb : cfg.baseURL = none
          · simp [createModel, h1, h2, h3, h4, hb, Except.isOk, Except.toBool]
          · simp [createModel, h1, h2, h3, h4, hb, Except.isOk, Except.toBool]
        · simp [createModel, h1, h2, h3, h4, Except.isOk, Except.toBool]

/-- Witness for claim C10: the deepseek and ollama defaults apply when no
base URL is supplied, and an unknown provider value errors with the
message naming it. -/
theorem create_model_providers_check :
    createModel { provider := "deepseek", model := "deepseek-chat"
                  apiKey := some "k", baseURL := none } =
      Except.ok (ModelInstance.deepseekModel (some "k")
        "https://api.deepseek.com" "deepseek-chat") ∧
    createModel { provider := "ollama", model := "llama3.2"
                  apiKey := none, baseURL := none } =
      Except.ok (ModelInstance.ollamaModel "http://localhost:11434" "llama3.2") ∧
    createModel { provider := "mistral", model := "m"
                  apiKey := none, baseURL := none } =
      Except.error ("Unsupported provider: " ++ "mistral") :=
  ⟨(create_model_providers
      { provider := "deepseek", model := "deepseek-chat"
        apiKey := some "k", baseURL := none }).2.2.2.2.1 rfl rfl,
   (create_model_providers
      { provider := "ollama", model := "llama3.2"
        apiKey := none, baseURL := none }).2.2.2.2.2 rfl rfl,
   (create_model_providers
      { provider := "mistral", model := "m"
        apiKey := none, baseURL := none }).2.1 (by decide)⟩

end AIPipeline
